import Mathlib

/-!
Verification development for the `ecommerce_research_demo` repository
(`generate_data.py` and `app.py`).

Shallow-embedding conventions:
* Randomness is made explicit: every call the Python code makes into a
  pseudo-random generator is modelled as reading a value from an input
  stream.  `generate_data.py` uses two independent sources — the *unseeded*
  global `random` module (`random.choice` / `random.random` /
  `random.randint`) and a numpy generator seeded with the constant `42` —
  so the embedded generator takes two streams, `py : Nat → PyDraw` for the
  global module and `npd : Nat → NpDraw` for the seeded numpy generator.
* The wall clock (`datetime.now()` / `datetime.utcnow()`) is an explicit
  `now : Int` argument, measured in minutes; all timestamps are minutes.
* Floating-point money is modelled exactly in integer cents; the
  probability constants of the source (`0.7`, `0.22`, `0.05`, …) are exact
  hundredths, and a unit-interval draw `rng.random()` is modelled as
  `u % 1000000` millionths, so `rng.random() < 0.7` becomes
  `u % 1000000 < 700000`.
* Fallible Python code (an uncaught `ValueError` from
  `random.randint(0, days_back)` with a negative bound) is modelled with
  `Except String`.
* `pandas` dataframes are lists of records; column operations are list
  operations.  `groupby(..., sort=True)` enumerates group keys in
  lexicographic (code-point) order, and `sort_values` is modelled as a
  stable sort on the sort key.
-/

/-! ## `generate_data.py`: static tables (lines 9-46, 57-63, 79-90) -/

/-- Line 9-15: the fixed 18-query catalog. -/
def queries : List String :=
  ["running shoes", "sneakers", "winter jacket", "jeans", "t shirt",
   "lipstick", "moisturizer", "perfume",
   "gaming mouse", "wireless keyboard", "earbuds", "smart watch",
   "coffee maker", "blender", "vacuum cleaner",
   "dog food", "cat litter", "yoga mat"]

/-- Lines 17-36: query → category. -/
def categories : List (String × String) :=
  [("running shoes", "Sportswear"),
   ("sneakers", "Footwear"),
   ("winter jacket", "Apparel"),
   ("jeans", "Apparel"),
   ("t shirt", "Apparel"),
   ("lipstick", "Beauty"),
   ("moisturizer", "Beauty"),
   ("perfume", "Beauty"),
   ("gaming mouse", "Electronics"),
   ("wireless keyboard", "Electronics"),
   ("earbuds", "Electronics"),
   ("smart watch", "Electronics"),
   ("coffee maker", "Home Appliances"),
   ("blender", "Home Appliances"),
   ("vacuum cleaner", "Home Appliances"),
   ("dog food", "Pet Supplies"),
   ("cat litter", "Pet Supplies"),
   ("yoga mat", "Sportswear")]

/-- Lines 38-46: category → (low, high) price range, in cents. -/
def price_ranges : List (String × (Int × Int)) :=
  [("Sportswear", (4000, 18000)),
   ("Footwear", (5000, 20000)),
   ("Apparel", (2000, 15000)),
   ("Beauty", (800, 8000)),
   ("Electronics", (2500, 25000)),
   ("Home Appliances", (3500, 30000)),
   ("Pet Supplies", (1000, 12000))]

/-- Lines 79-87: category → base click probability, in millionths. -/
def base_click_prob : List (String × Nat) :=
  [("Electronics", 800000),
   ("Beauty", 750000),
   ("Sportswear", 700000),
   ("Footwear", 700000),
   ("Apparel", 650000),
   ("Home Appliances", 600000),
   ("Pet Supplies", 600000)]

/-- Line 90: queries with a systematic click-probability penalty. -/
def bad_queries : List String := ["t shirt", "blender", "cat litter"]

/-- Lines 57-63: the five noisy spelling variants. -/
def noisy_variants : List (String × String) :=
  [("running shoes", "runing shoes"),
   ("sneakers", "sneeker"),
   ("winter jacket", "winter jaket"),
   ("t shirt", "t-shirt"),
   ("earbuds", "ear buds")]

/-! ## `generate_data.py`: the event record and the generator -/

/-- One generated search-log record (the dict appended at lines 125-139).
`clicked`, `purchased`, `no_result` are stored as 0/1 ints in the source
and as `Bool` here; money is in cents; the timestamp is in minutes. -/
structure Event where
  timestamp : Int
  session_id : Nat
  user_id : Nat
  query : String
  normalized_query : String
  category : String
  clicked : Bool
  click_position : Option Nat
  purchased : Bool
  product_id : Option Nat
  price : Option Int
  revenue : Int
  no_result : Bool
deriving Repr, DecidableEq

/-- Per-row draws taken from the unseeded global `random` module:
`random.choice(queries)` (modelled by an index), `random.random() < 0.1`
(line 56, modelled by its Boolean outcome), and the raw values behind
`random.randint(0, days_back)` and `random.randint(0, 1440)`. -/
structure PyDraw where
  choice : Nat
  noise : Bool
  days : Nat
  minutes : Nat
deriving Repr, DecidableEq

/-- Per-row draws taken from the numpy generator seeded with 42:
`rng.integers` raw values and `rng.random()` / `rng.uniform` draws
(unit-interval draws in millionths, the price draw as a raw value mapped
into the category's cent range). -/
structure NpDraw where
  session : Nat
  user : Nat
  clickRand : Nat
  pos : Nat
  purchRand : Nat
  priceRaw : Nat
  noResRand : Nat
  prod : Nat
deriving Repr, DecidableEq

/-- `random.randint(lo, hi)`: uniform on `[lo, hi]` inclusive; raises
`ValueError: empty range for randrange` when `hi < lo` (this is what
`random.randint(0, days_back)` does for negative `days_back`). -/
def pyRandint (lo hi : Int) (raw : Nat) : Except String Int :=
  if hi < lo then .error "empty range for randrange"
  else .ok (lo + (raw % (hi - lo + 1).toNat : Nat))

/-- The infallible part of one row-loop iteration (`generate_data.py`
lines 52-67 and 74-139), given the two day/minute offsets already drawn
at lines 69-72. -/
def rowCore (days_back now : Int) (p : PyDraw) (d : NpDraw) (dDays dMins : Int) : Event :=
  -- line 52: query = random.choice(queries); line 53: category lookup
  let query0 := queries.getD (p.choice % queries.length) ""
  let category := (categories.lookup query0).getD ""
  -- lines 56-67: noisy variants with probability 0.1
  let query := if p.noise then (noisy_variants.lookup query0).getD query0 else query0
  let normalized_query := query0
  -- lines 69-72: timestamp = base_time + dDays days + dMins minutes,
  -- where base_time = now - days_back days (line 48)
  let timestamp := now - days_back * 1440 + dDays * 1440 + dMins
  -- lines 74-75: rng.integers(100000, 999999), rng.integers(1000, 5000)
  let session_id := 100000 + d.session % 899999
  let user_id := 1000 + d.user % 4000
  -- lines 79-94: click probability with bad-query penalty
  let bcp := (base_click_prob.lookup category).getD 0
  let click_prob : Int := if query0 ∈ bad_queries then (bcp : Int) - 200000 else (bcp : Int)
  -- line 96: clicked = rng.random() < max(min(click_prob, 0.95), 0.05)
  let clicked := decide ((d.clickRand % 1000000 : Int) < max (min click_prob 950000) 50000)
  -- line 97: click_position = rng.integers(1, 10) if clicked else None
  let click_position := if clicked then some (1 + d.pos % 9) else none
  -- lines 100-107: purchase only if clicked; 0.22 base, +0.08 bonus
  let purchase_prob : Nat :=
    if category = "Beauty" ∨ category = "Pet Supplies" then 220000 + 80000 else 220000
  let purchased := clicked && decide (d.purchRand % 1000000 < purchase_prob)
  -- lines 110-112: price uniform in the category range (cents), revenue
  let pr := (price_ranges.lookup category).getD (0, 0)
  let price := if purchased then some (pr.1 + (d.priceRaw % (pr.2 - pr.1 + 1).toNat : Nat)) else none
  let revenue := if purchased then price.getD 0 else 0
  -- lines 114-121: no_result with probability 0.05 forces overrides
  let no_result := decide (d.noResRand % 1000000 < 50000)
  let clicked := if no_result then false else clicked
  let purchased := if no_result then false else purchased
  let click_position := if no_result then none else click_position
  let revenue := if no_result then 0 else revenue
  let price := if no_result then none else price
  -- line 123: product_id only if purchased (after the override)
  let product_id := if purchased then some (10000 + d.prod % 89999) else none
  { timestamp, session_id, user_id, query, normalized_query, category,
    clicked, click_position, purchased, product_id, price, revenue, no_result }

/-- One iteration of the row loop, `generate_data.py` lines 51-139: the
two `random.randint` calls of lines 69-72 can raise, everything else is
total. -/
def genRow (days_back now : Int) (p : PyDraw) (d : NpDraw) : Except String Event :=
  match pyRandint 0 days_back p.days, pyRandint 0 1440 p.minutes with
  | .ok dDays, .ok dMins => .ok (rowCore days_back now p d dDays dMins)
  | .error msg, _ => .error msg
  | _, .error msg => .error msg

/-- Sequentialises the row loop: the first raised error aborts the whole
call, exactly like an uncaught Python exception. -/
def exceptMap (f : Nat → Except String Event) : List Nat → Except String (List Event)
  | [] => .ok []
  | i :: is =>
    match f i, exceptMap f is with
    | .ok e, .ok rest => .ok (e :: rest)
    | .error msg, _ => .error msg
    | .ok _, .error msg => .error msg

/-- `generate_ecommerce_search_logs` (lines 6-142): `range(n_rows)` is
empty for non-positive `n_rows`, so the row loop simply never runs. -/
def generate_ecommerce_search_logs (n_rows days_back : Int) (now : Int)
    (py : Nat → PyDraw) (npd : Nat → NpDraw) : Except String (List Event) :=
  exceptMap (fun i => genRow days_back now (py i) (npd i)) (List.range n_rows.toNat)

/-! ## `app.py`: the variant synthetic generator (lines 21-61) -/

/-- The event schema of `generate_synthetic_data` (lines 46-58).
`dwell_time_sec` is a gamma draw carried through opaquely (in
milliseconds), money appears only after enrichment. -/
structure AppEvent where
  timestamp : Int
  session_id : Nat
  user_id : Nat
  query : String
  n_results : Nat
  clicked : Bool
  dwell_time_sec : Nat
  added_to_cart : Bool
  purchased : Bool
  country : String
  device : String
deriving Repr, DecidableEq

/-- Per-row draws of the numpy generator seeded with 42 in
`generate_synthetic_data`.  The 0/1 columns drawn with
`rng.choice([0, 1], p=...)` (`clicked`, `added_to_cart`, `purchased`) are
modelled by their Boolean outcomes; note the three are drawn
independently of each other. -/
structure AppDraw where
  tsMin : Nat
  session : Nat
  user : Nat
  queryIdx : Nat
  nRes : Nat
  clickedBit : Bool
  dwell : Nat
  cartBit : Bool
  purchBit : Bool
  countryIdx : Nat
  deviceIdx : Nat
deriving Repr, DecidableEq

/-- Lines 30-42: the 11-query catalog of the variant generator. -/
def app_queries : List String :=
  ["running shoes", "wireless headphones", "laptop bag", "phone charger",
   "coffee mug", "office chair", "gaming keyboard", "baby stroller",
   "winter jacket", "smartwatch", "Smart phone"]

/-- Line 43. -/
def countries : List String :=
  ["Canada", "USA", "UK", "Germany", "India", "Brazil", "Kenya"]

/-- Line 44. -/
def devices : List String :=
  ["mobile", "desktop", "tablet", "cloth", "gaming machine"]

/-- `generate_synthetic_data` (lines 21-61): one record per row, each
field drawn columnwise from the seeded numpy generator.  Timestamps are
`utcnow() - m` minutes with `m = rng.integers(0, 60*24*30)`. -/
def generate_synthetic_data (n_rows : Nat) (now : Int) (dr : Nat → AppDraw) : List AppEvent :=
  (List.range n_rows).map fun i =>
    { timestamp := now - ((dr i).tsMin % (60 * 24 * 30) : Nat)
      session_id := 10000 + (dr i).session % 89999
      user_id := 1 + (dr i).user % 499
      query := app_queries.getD ((dr i).queryIdx % app_queries.length) ""
      n_results := (dr i).nRes % 50
      clicked := (dr i).clickedBit
      dwell_time_sec := (dr i).dwell
      added_to_cart := (dr i).cartBit
      purchased := (dr i).purchBit
      country := countries.getD ((dr i).countryIdx % countries.length) ""
      device := devices.getD ((dr i).deviceIdx % devices.length) "" }

/-! ## `app.py`: price/revenue enrichment (lines 97-134) -/

/-- Lines 105-117: base price per query, in cents. -/
def base_prices : List (String × Int) :=
  [("running shoes", 9000),
   ("wireless headphones", 12000),
   ("laptop bag", 4500),
   ("phone charger", 2500),
   ("coffee mug", 1500),
   ("office chair", 18000),
   ("gaming keyboard", 8500),
   ("baby stroller", 22000),
   ("winter jacket", 16000),
   ("smartwatch", 25000),
   ("Smart phone", 75000)]

/-- An `AppEvent` extended with the `price` and `revenue` columns the
enrichment adds.  `price` is kept optional to model column nullability;
the enrichment in fact fills it for every row. -/
structure EnrichedEvent extends AppEvent where
  price : Option Int
  revenue : Int
deriving Repr, DecidableEq

/-- `enrich_with_price_and_revenue` (lines 97-134) on a dataframe that
has neither a `price` nor a `revenue` column (the schema
`generate_synthetic_data` produces): `price = map(base_prices).fillna(50)`
scaled by per-row uniform noise from a numpy generator seeded with 123
(lines 120-126, the noise factor is a stream argument in per-mille, the
round-to-cents of the float product is integer division here), and
`revenue = price * purchased` (line 130). -/
def enrichRow (noise : Nat → Nat) (ie : Nat × AppEvent) : EnrichedEvent :=
  let base := (base_prices.lookup ie.2.query).getD 5000
  let price := base * (900 + (noise ie.1) % 201) / 1000
  { toAppEvent := ie.2
    price := some price
    revenue := price * (if ie.2.purchased then 1 else 0) }

/-- The columnwise enrichment as a per-row map. -/
def enrich_with_price_and_revenue (noise : Nat → Nat) (evs : List AppEvent) :
    List EnrichedEvent :=
  evs.enum.map (enrichRow noise)

/-! ## `app.py`: summary metrics (lines 216-222) -/

/-- Line 217: `(df_filt["clicked"].mean() * 100) if total_searches else 0`. -/
def click_through_rate (evs : List AppEvent) : ℚ :=
  if evs.length ≠ 0 then ((evs.countP (fun e => e.clicked) : ℚ) / (evs.length : ℚ)) * 100 else 0

/-- Line 218. -/
def add_to_cart_rate (evs : List AppEvent) : ℚ :=
  if evs.length ≠ 0 then ((evs.countP (fun e => e.added_to_cart) : ℚ) / (evs.length : ℚ)) * 100 else 0

/-- Line 219. -/
def purchase_rate (evs : List AppEvent) : ℚ :=
  if evs.length ≠ 0 then ((evs.countP (fun e => e.purchased) : ℚ) / (evs.length : ℚ)) * 100 else 0

/-! ## `app.py`: sidebar filters (lines 160-205) -/

/-- The sidebar filter state: a date range, optional country/device
multiselects (an empty list means no restriction) and a query substring. -/
structure FilterPred where
  start_date : Int
  end_date : Int
  country_filter : List String
  device_filter : List String
  query_search : String
deriving Repr, DecidableEq

/-- Boolean check that `needle` occurs as a prelude of `hay`. -/
def startsWithB : List Char → List Char → Bool
  | [], _ => true
  | _ :: _, [] => false
  | a :: as, b :: bs => a == b && startsWithB as bs

/-- Boolean substring check on char lists. -/
def containsB (needle : List Char) : List Char → Bool
  | [] => needle.isEmpty
  | c :: rest => startsWithB needle (c :: rest) || containsB needle rest

/-- `df["query"].str.contains(s, case=False)` (line 203). -/
def queryContains (e : AppEvent) (s : String) : Bool :=
  containsB s.toLower.data e.query.toLower.data

/-- The combined boolean mask of lines 191-203, applied to one row.
`dt.date` at minute granularity is flooring division by 1440. -/
def evalMask (P : FilterPred) (e : AppEvent) : Bool :=
  decide (P.start_date ≤ e.timestamp / 1440) && decide (e.timestamp / 1440 ≤ P.end_date)
  && (P.country_filter.isEmpty || P.country_filter.contains e.country)
  && (P.device_filter.isEmpty || P.device_filter.contains e.device)
  && (P.query_search.trim.isEmpty || queryContains e P.query_search.trim)

/-- `df_filt = df[mask]` (line 205). -/
def df_filt (P : FilterPred) (evs : List AppEvent) : List AppEvent :=
  evs.filter (evalMask P)

/-! ## `app.py`: the per-query rollup (lines 244-254)

The rollup runs on whatever dataset the app loaded; when
`ecommerce_search_logs.csv` was produced by `generate_data.py` that
dataset carries both a `query` and a `normalized_query` column, so the
rollup is modelled over the full `Event` schema.  `groupby` with the
default `sort=True` enumerates group keys in lexicographic code-point
order; `sort_values("searches", ascending=False)` is modelled as a
stable descending sort on the group size. -/

/-- Strict lexicographic code-point order on char lists (Python string
comparison). -/
def charListLt : List Char → List Char → Bool
  | [], [] => false
  | [], _ :: _ => true
  | _ :: _, [] => false
  | a :: as, b :: bs =>
    decide (a.toNat < b.toNat) || (decide (a.toNat = b.toNat) && charListLt as bs)

/-- `a` may precede `b` in an ascending key sort: `¬ (b < a)`. -/
def strPre (a b : String) : Bool := !(charListLt b.data a.data)

/-- Stable insertion into a sorted list: `x` is placed before the first
element it is allowed to precede, so elements the comparator ties keep
their original relative order. -/
def insertPre {α : Type} (pre : α → α → Bool) (x : α) : List α → List α
  | [] => [x]
  | y :: ys => if pre x y then x :: y :: ys else y :: insertPre pre x ys

/-- Stable insertion sort driven by a `may-precede` comparator. -/
def isortBy {α : Type} (pre : α → α → Bool) : List α → List α
  | [] => []
  | x :: xs => insertPre pre x (isortBy pre xs)

/-- One output row of the `top_queries` aggregation (line 246-251):
group size, mean click rate, purchase count and summed revenue. -/
structure QueryRow where
  key : String
  searches : Nat
  ctr : ℚ
  purchases : Nat
  revenue : Int
deriving Repr, DecidableEq

/-- The aggregations of lines 246-251 for the group of `k`. -/
def mkRow (events : List Event) (k : String) : QueryRow :=
  let es := events.filter (fun e => e.query == k)
  { key := k
    searches := es.length
    ctr := (es.countP (fun e => e.clicked) : ℚ) / (es.length : ℚ)
    purchases := es.countP (fun e => e.purchased)
    revenue := (es.map (fun e => e.revenue)).sum }

/-- The distinct `query` values in lexicographic order: the group keys of
`groupby("query")` with the default `sort=True`. -/
def sortedKeys (events : List Event) : List String :=
  isortBy strPre ((events.map (fun e => e.query)).dedup)

/-- Descending comparator on group size for `sort_values("searches",
ascending=False)`. -/
def rowPre (a b : QueryRow) : Bool := decide (b.searches ≤ a.searches)

/-- The strict order the sorted rollup realises: strictly more searches
first, equal search counts in lexicographic key order. -/
def rowRel (a b : QueryRow) : Prop :=
  b.searches < a.searches ∨
    (a.searches = b.searches ∧ charListLt a.key.data b.key.data = true)

/-- `top_queries` (lines 244-254): group by the raw `query` column,
aggregate, sort by `searches` descending, take the top `top_n`. -/
def top_queries (top_n : Nat) (events : List Event) : List QueryRow :=
  (isortBy rowPre ((sortedKeys events).map (mkRow events))).take top_n

/-- The rollup the spec describes, keyed on `normalized_query` instead of
the raw `query` column; written from the spec's words for comparison with
`top_queries` above. -/
def mkRowNormalized (events : List Event) (k : String) : QueryRow :=
  let es := events.filter (fun e => e.normalized_query == k)
  { key := k
    searches := es.length
    ctr := (es.countP (fun e => e.clicked) : ℚ) / (es.length : ℚ)
    purchases := es.countP (fun e => e.purchased)
    revenue := (es.map (fun e => e.revenue)).sum }

/-- Spec-side variant of `top_queries`, grouping by `normalized_query`. -/
def top_queries_by_normalized (top_n : Nat) (events : List Event) : List QueryRow :=
  (isortBy rowPre
    ((isortBy strPre ((events.map (fun e => e.normalized_query)).dedup)).map
      (mkRowNormalized events))).take top_n

/-! ## Concrete inputs used by witnesses and counterexamples -/

/-- All-zero draws from the global `random` module: first catalog query,
no noise, zero day/minute offsets. -/
def pyZero : Nat → PyDraw := fun _ => ⟨0, false, 0, 0⟩

/-- Pointwise equal to `pyZero` but syntactically different. -/
def pyZero2 : Nat → PyDraw := fun i => ⟨i * 0, false, 0 + 0, 0⟩

/-- Global-`random` draws that pick `"jeans"` (catalog index 3). -/
def pyJeans : Nat → PyDraw := fun _ => ⟨3, false, 0, 0⟩

/-- Global-`random` draws hitting the maximal day and minute offsets of
`randint(0, days_back)` and `randint(0, 1440)` (for `days_back = 1`). -/
def pyMax : Nat → PyDraw := fun _ => ⟨0, false, 1, 1440⟩

/-- Numpy draws producing a clicked, purchased, non-`no_result` row. -/
def npA : Nat → NpDraw := fun _ => ⟨0, 0, 0, 0, 0, 0, 999999, 0⟩

/-- Numpy draws producing a `no_result` row (every unit draw is 0, so the
0.05 `no_result` branch fires). -/
def npB : Nat → NpDraw := fun _ => ⟨0, 0, 0, 0, 0, 0, 0, 0⟩

/-- The event `generate_ecommerce_search_logs 1 30 0 pyZero npA` yields. -/
def eA : Event :=
  { timestamp := -43200, session_id := 100000, user_id := 1000,
    query := "running shoes", normalized_query := "running shoes",
    category := "Sportswear", clicked := true, click_position := some 1,
    purchased := true, product_id := some 10000, price := some 4000,
    revenue := 4000, no_result := false }

/-- The event `generate_ecommerce_search_logs 1 30 0 pyZero npB` yields. -/
def eB : Event :=
  { timestamp := -43200, session_id := 100000, user_id := 1000,
    query := "running shoes", normalized_query := "running shoes",
    category := "Sportswear", clicked := false, click_position := none,
    purchased := false, product_id := none, price := none,
    revenue := 0, no_result := true }

/-- An app-generator draw whose purchase bit is set but whose click bit
is not (the two are independent draws in `generate_synthetic_data`). -/
def drPurchasedNoClick : Nat → AppDraw := fun _ =>
  ⟨0, 0, 0, 0, 0, false, 0, false, true, 0, 0⟩

/-- A concrete unpurchased app event for the enrichment counterexample. -/
def cAppEv : AppEvent :=
  { timestamp := 0, session_id := 10000, user_id := 1, query := "coffee mug",
    n_results := 0, clicked := false, dwell_time_sec := 0,
    added_to_cart := false, purchased := false, country := "Canada",
    device := "mobile" }

/-- The enriched row `enrich_with_price_and_revenue (fun _ => 100) [cAppEv]`
yields: a price despite `purchased = false`. -/
def cEnr : EnrichedEvent :=
  { toAppEvent := cAppEv, price := some 1500, revenue := 0 }

/-- A raw-query/normalized-query pair witnessing that grouping by `query`
splits what grouping by `normalized_query` merges. -/
def cE1 : Event :=
  { timestamp := 0, session_id := 100000, user_id := 1000,
    query := "runing shoes", normalized_query := "running shoes",
    category := "Sportswear", clicked := true, click_position := some 1,
    purchased := false, product_id := none, price := none,
    revenue := 0, no_result := false }

/-- Same normalized query as `cE1`, canonical raw spelling. -/
def cE2 : Event :=
  { timestamp := 0, session_id := 100001, user_id := 1001,
    query := "running shoes", normalized_query := "running shoes",
    category := "Sportswear", clicked := false, click_position := none,
    purchased := false, product_id := none, price := none,
    revenue := 0, no_result := false }


/-! ## Helper lemmas -/

/-- A successful `pyRandint` lands in the inclusive range. -/
theorem pyRandint_ok {lo hi : Int} {raw : Nat} {v : Int}
    (h : pyRandint lo hi raw = .ok v) : lo ≤ v ∧ v ≤ hi := by
  unfold pyRandint at h
  split at h
  · exact absurd h (by simp)
  · next hge =>
    simp only [Except.ok.injEq] at h
    subst h
    have hpos : 0 < (hi - lo + 1).toNat := by omega
    have hm : raw % (hi - lo + 1).toNat < (hi - lo + 1).toNat := Nat.mod_lt _ hpos
    omega

/-- `pyRandint` on an empty range raises. -/
theorem pyRandint_neg {lo hi : Int} {raw : Nat} (h : hi < lo) :
    pyRandint lo hi raw = .error "empty range for randrange" := by
  simp [pyRandint, h]

/-- Inversion for a successful `genRow`. -/
theorem genRow_ok_shape {days_back now : Int} {p : PyDraw} {d : NpDraw} {e : Event}
    (h : genRow days_back now p d = .ok e) :
    ∃ dDays dMins, pyRandint 0 days_back p.days = .ok dDays ∧
      pyRandint 0 1440 p.minutes = .ok dMins ∧ e = rowCore days_back now p d dDays dMins := by
  unfold genRow at h
  split at h
  · next dDays dMins h1 h2 =>
    simp only [Except.ok.injEq] at h
    exact ⟨dDays, dMins, h1, h2, h.symm⟩
  · exact absurd h (by simp)
  · exact absurd h (by simp)

/-- Every event of a successful `exceptMap` comes from a successful call
of the row function at some index of the list. -/
theorem exceptMap_ok_mem {f : Nat → Except String Event} :
    ∀ {l : List Nat} {evs : List Event}, exceptMap f l = .ok evs →
      ∀ e ∈ evs, ∃ i ∈ l, f i = .ok e := by
  intro l
  induction l with
  | nil =>
    intro evs h e he
    simp only [exceptMap, Except.ok.injEq] at h
    subst h
    simp at he
  | cons i is ih =>
    intro evs h e he
    unfold exceptMap at h
    split at h
    · next e0 rest hf hrest =>
      simp only [Except.ok.injEq] at h
      subst h
      rcases List.mem_cons.mp he with he0 | hrest'
      · exact ⟨i, List.mem_cons_self i is, he0 ▸ hf⟩
      · obtain ⟨j, hj, hfj⟩ := ih hrest e hrest'
        exact ⟨j, List.mem_cons_of_mem i hj, hfj⟩
    · exact absurd h (by simp)
    · exact absurd h (by simp)

/-- Every event of a successful `generate_ecommerce_search_logs` call is
produced by `genRow` at some row index. -/
theorem generate_ok_row {n_rows days_back now : Int} {py : Nat → PyDraw}
    {npd : Nat → NpDraw} {evs : List Event}
    (h : generate_ecommerce_search_logs n_rows days_back now py npd = .ok evs)
    {e : Event} (he : e ∈ evs) : ∃ i, genRow days_back now (py i) (npd i) = .ok e := by
  obtain ⟨i, _, hi⟩ := exceptMap_ok_mem h e he
  exact ⟨i, hi⟩

/-- `List.getD` at an in-range index is a member. -/
theorem getD_mem {α : Type} : ∀ (l : List α) (n : Nat) (dflt : α), n < l.length →
    l.getD n dflt ∈ l := by
  intro l
  induction l with
  | nil => intro n dflt h; simp at h
  | cons a l ih =>
    intro n dflt h
    cases n with
    | zero => simp
    | succ m =>
      simp only [List.getD_cons_succ]
      exact List.mem_cons_of_mem a (ih m dflt (by simpa using h))

/-- Left projection of a true Boolean conjunction. -/
theorem bool_and_left {a b : Bool} (h : (a && b) = true) : a = true := by
  cases a
  · simp at h
  · rfl

/-- A false Boolean is not true. -/
theorem bool_ne_true {a : Bool} (h : a = false) : ¬ a = true := by
  simp [h]

/-- A purchased row is a clicked row (lines 99-107 and 114-121). -/
theorem rowCore_purchased_clicked (days_back now : Int) (p : PyDraw) (d : NpDraw)
    (dDays dMins : Int) :
    (rowCore days_back now p d dDays dMins).purchased = true →
    (rowCore days_back now p d dDays dMins).clicked = true := by
  simp only [rowCore]
  intro h
  split at h
  · exact absurd h (by simp)
  · next hnr =>
    rw [if_neg hnr]
    exact bool_and_left h

/-- The `no_result` override of lines 114-121. -/
theorem rowCore_no_result (days_back now : Int) (p : PyDraw) (d : NpDraw)
    (dDays dMins : Int)
    (h : (rowCore days_back now p d dDays dMins).no_result = true) :
    (rowCore days_back now p d dDays dMins).clicked = false ∧
    (rowCore days_back now p d dDays dMins).purchased = false ∧
    (rowCore days_back now p d dDays dMins).click_position = none ∧
    (rowCore days_back now p d dDays dMins).price = none ∧
    (rowCore days_back now p d dDays dMins).revenue = 0 := by
  simp only [rowCore] at h ⊢
  simp [h]

/-- Price/revenue consistency of a generated row (lines 109-121). -/
theorem rowCore_price_revenue (days_back now : Int) (p : PyDraw) (d : NpDraw)
    (dDays dMins : Int) :
    ((rowCore days_back now p d dDays dMins).purchased = true →
      ∃ v, (rowCore days_back now p d dDays dMins).price = some v ∧
        (rowCore days_back now p d dDays dMins).revenue = v) ∧
    ((rowCore days_back now p d dDays dMins).purchased = false →
      (rowCore days_back now p d dDays dMins).revenue = 0 ∧
      (rowCore days_back now p d dDays dMins).price = none) := by
  simp only [rowCore]
  constructor <;> intro h
  · split at h
    · exact absurd h (by simp)
    · next hnr =>
      rw [if_neg hnr, if_neg hnr, if_pos h, if_pos h]
      exact ⟨_, rfl, rfl⟩
  · split at h
    · next hnr => rw [if_pos hnr, if_pos hnr]; exact ⟨rfl, rfl⟩
    · next hnr =>
      have h' := bool_ne_true h
      rw [if_neg hnr, if_neg hnr, if_neg h', if_neg h']
      exact ⟨rfl, rfl⟩

/-- The canonical query of a row is a catalog member (line 52). -/
theorem rowCore_normalized_mem (days_back now : Int) (p : PyDraw) (d : NpDraw)
    (dDays dMins : Int) :
    (rowCore days_back now p d dDays dMins).normalized_query ∈ queries :=
  getD_mem queries (p.choice % queries.length) "" (Nat.mod_lt _ (by decide))

/-- Case split on a `noisy_variants` lookup. -/
theorem lookup_getD_or (k : String) :
    (noisy_variants.lookup k).getD k = k ∨
    ∃ v, noisy_variants.lookup k = some v ∧ (noisy_variants.lookup k).getD k = v := by
  cases hv : noisy_variants.lookup k <;> simp [hv]

/-- The raw query is the canonical one, or its listed noisy variant
(lines 56-67). -/
theorem rowCore_query_variant (days_back now : Int) (p : PyDraw) (d : NpDraw)
    (dDays dMins : Int) :
    (rowCore days_back now p d dDays dMins).query =
      (rowCore days_back now p d dDays dMins).normalized_query ∨
    ∃ v, noisy_variants.lookup
        (rowCore days_back now p d dDays dMins).normalized_query = some v ∧
      (rowCore days_back now p d dDays dMins).query = v := by
  simp only [rowCore]
  cases hn : p.noise
  · left
    simp
  · simp only [if_pos rfl]
    exact lookup_getD_or _

/-- Field facts of one enriched row: `revenue = price * purchased` and
the price column is always filled (lines 120-132 of `app.py`). -/
theorem enrichRow_fields (noise : Nat → Nat) (ie : Nat × AppEvent) :
    ((enrichRow noise ie).purchased = true →
      (enrichRow noise ie).revenue = (enrichRow noise ie).price.getD 0) ∧
    ((enrichRow noise ie).purchased = false → (enrichRow noise ie).revenue = 0) ∧
    (enrichRow noise ie).price.isSome = true := by
  cases hp : ie.2.purchased <;> simp [enrichRow, hp]

/-- Timestamp bounds of a row given in-range day/minute offsets
(lines 48, 69-72). -/
theorem rowCore_timestamp (days_back now : Int) (p : PyDraw) (d : NpDraw)
    (dDays dMins : Int) (h1 : 0 ≤ dDays) (h2 : dDays ≤ days_back)
    (h3 : 0 ≤ dMins) (h4 : dMins ≤ 1440) :
    now - days_back * 1440 ≤ (rowCore days_back now p d dDays dMins).timestamp ∧
    (rowCore days_back now p d dDays dMins).timestamp ≤ now + 1440 := by
  have : (rowCore days_back now p d dDays dMins).timestamp =
      now - days_back * 1440 + dDays * 1440 + dMins := rfl
  rw [this]
  omega

/-! ## Claim theorems (C1, C2, C3, C4, C6, C7, C8, C9, C10) -/

/-- C1 counterexample: `generate_synthetic_data` in `app.py` draws
`clicked` and `purchased` independently, so it produces an event with
`purchased = true` and `clicked = false`; the claimed invariant fails for
that generator. -/
theorem synthetic_purchase_without_click :
    (generate_synthetic_data 1 0 drPurchasedNoClick).map
      (fun e => (e.purchased, e.clicked)) = [(true, false)] := by
  decide

/-- C1 (amended): every event of a successful
`generate_ecommerce_search_logs` call that is purchased is clicked. -/
theorem gen_purchased_implies_clicked
    (n_rows days_back now : Int) (py : Nat → PyDraw) (npd : Nat → NpDraw)
    (evs : List Event)
    (h : generate_ecommerce_search_logs n_rows days_back now py npd = .ok evs) :
    ∀ e ∈ evs, e.purchased = true → e.clicked = true := by
  intro e he hp
  obtain ⟨i, hi⟩ := generate_ok_row h he
  obtain ⟨a, b, _, _, rfl⟩ := genRow_ok_shape hi
  exact rowCore_purchased_clicked _ _ _ _ _ _ hp

/-- C1 witness: the concrete purchased event `eA` is clicked. -/
theorem gen_purchased_implies_clicked_witness :
    eA.purchased = true ∧ eA.clicked = true :=
  ⟨rfl, gen_purchased_implies_clicked 1 30 0 pyZero npA [eA] rfl eA
    (List.mem_singleton.mpr rfl) rfl⟩

/-- C2 counterexample: with every explicit argument identical (and the
numpy stream fixed, as the seed is the constant 42), two calls still
differ when the unseeded global `random` module delivers different
draws — determinism given the arguments alone fails. -/
theorem generate_differs_across_global_random :
    ((generate_ecommerce_search_logs 1 30 0 pyZero npA).toOption.getD []).map
        (fun e => e.query) ≠
      ((generate_ecommerce_search_logs 1 30 0 pyJeans npA).toOption.getD []).map
        (fun e => e.query) := by
  decide

/-- C2 (amended): the generator is a pure function of its arguments
together with both entropy sources — fixing the argument tuple, the
global-`random` draw stream and the seed-derived numpy stream fixes the
output exactly. -/
theorem generate_deterministic_given_entropy
    (n_rows days_back now : Int) (py py' : Nat → PyDraw) (npd npd' : Nat → NpDraw)
    (hpy : ∀ i, py i = py' i) (hnp : ∀ i, npd i = npd' i) :
    generate_ecommerce_search_logs n_rows days_back now py npd =
    generate_ecommerce_search_logs n_rows days_back now py' npd' := by
  have h1 : py = py' := funext hpy
  have h2 : npd = npd' := funext hnp
  rw [h1, h2]

/-- C2 witness: two syntactically different but pointwise-equal global
streams give identical output. -/
theorem generate_deterministic_given_entropy_witness :
    generate_ecommerce_search_logs 2 30 0 pyZero npA =
    generate_ecommerce_search_logs 2 30 0 pyZero2 npA :=
  generate_deterministic_given_entropy 2 30 0 pyZero pyZero2 npA npA
    (fun i => by simp [pyZero, pyZero2]) (fun _ => rfl)

/-- C3 counterexample: a negative `n_rows` does not fail — `range(-1)` is
empty and the call returns an empty dataset. -/
theorem generate_negative_rows_no_error :
    generate_ecommerce_search_logs (-1) 30 0 pyZero npA = .ok [] := by
  rfl

/-- C3 (amended): there is no argument validation; non-positive `n_rows`
yields `ok []`, and a negative `days_back` raises (the `ValueError` from
`random.randint(0, days_back)`) only when at least one row is generated. -/
theorem generate_negative_args
    (n_rows days_back now : Int) (py : Nat → PyDraw) (npd : Nat → NpDraw) :
    (n_rows < 0 → generate_ecommerce_search_logs n_rows days_back now py npd = .ok []) ∧
    (0 < n_rows → days_back < 0 →
      generate_ecommerce_search_logs n_rows days_back now py npd =
        .error "empty range for randrange") := by
  constructor
  · intro hn
    unfold generate_ecommerce_search_logs
    rw [Int.toNat_of_nonpos (le_of_lt hn)]
    rfl
  · intro hn hd
    unfold generate_ecommerce_search_logs
    obtain ⟨k, hk⟩ : ∃ k, n_rows.toNat = k + 1 := ⟨n_rows.toNat - 1, by omega⟩
    rw [hk, List.range_succ_eq_map]
    have hrow : genRow days_back now (py 0) (npd 0) = .error "empty range for randrange" := by
      unfold genRow
      rw [pyRandint_neg hd]
      cases pyRandint 0 1440 (py 0).minutes <;> rfl
    simp [exceptMap, hrow]

/-- C3 witness: both behaviours at concrete arguments. -/
theorem generate_negative_args_witness :
    generate_ecommerce_search_logs (-2) 30 0 pyZero npA = .ok [] ∧
    generate_ecommerce_search_logs 1 (-1) 0 pyZero npA =
      .error "empty range for randrange" :=
  ⟨(generate_negative_args (-2) 30 0 pyZero npA).1 (by decide),
   (generate_negative_args 1 (-1) 0 pyZero npA).2 (by decide) (by decide)⟩

/-- C4 counterexample: with `days_back = 1` and `now = 0` the day and
minute draws can both hit their maxima, producing a timestamp of 1440
minutes — a full day after `now`, outside the claimed interval. -/
theorem generate_timestamp_exceeds_now :
    ((generate_ecommerce_search_logs 1 1 0 pyMax npA).toOption.getD []).map
        (fun e => e.timestamp) = [(1440 : Int)] ∧ ((0 : Int) < 1440) := by
  decide

/-- C4 (amended): every generated timestamp lies in
`[now - days_back days, now + 1 day]`: the code draws a day offset in
`[0, days_back]` and an independent minute offset in `[0, 1440]` on top
of `base_time = now - days_back`, so the upper end overshoots `now` by up
to one day. -/
theorem generate_timestamp_bounds
    (n_rows days_back now : Int) (py : Nat → PyDraw) (npd : Nat → NpDraw)
    (evs : List Event)
    (h : generate_ecommerce_search_logs n_rows days_back now py npd = .ok evs) :
    ∀ e ∈ evs, now - days_back * 1440 ≤ e.timestamp ∧ e.timestamp ≤ now + 1440 := by
  intro e he
  obtain ⟨i, hi⟩ := generate_ok_row h he
  obtain ⟨a, b, ha, hb, rfl⟩ := genRow_ok_shape hi
  obtain ⟨ha1, ha2⟩ := pyRandint_ok ha
  obtain ⟨hb1, hb2⟩ := pyRandint_ok hb
  exact rowCore_timestamp _ _ _ _ _ _ ha1 ha2 hb1 hb2

/-- C4 witness: the bounds at a concrete generated event. -/
theorem generate_timestamp_bounds_witness :
    (0 : Int) - 30 * 1440 ≤ eA.timestamp ∧ eA.timestamp ≤ (0 : Int) + 1440 :=
  generate_timestamp_bounds 1 30 0 pyZero npA [eA] rfl eA (List.mem_singleton.mpr rfl)

/-- C6: a `no_result` event has `clicked = false`, `purchased = false`,
`click_position = null`, `price = null` and `revenue = 0`, whatever the
earlier draws were. -/
theorem generate_no_result_override
    (n_rows days_back now : Int) (py : Nat → PyDraw) (npd : Nat → NpDraw)
    (evs : List Event)
    (h : generate_ecommerce_search_logs n_rows days_back now py npd = .ok evs) :
    ∀ e ∈ evs, e.no_result = true →
      e.clicked = false ∧ e.purchased = false ∧ e.click_position = none ∧
      e.price = none ∧ e.revenue = 0 := by
  intro e he hnr
  obtain ⟨i, hi⟩ := generate_ok_row h he
  obtain ⟨a, b, _, _, rfl⟩ := genRow_ok_shape hi
  exact rowCore_no_result _ _ _ _ _ _ hnr

/-- C6 witness: the concrete `no_result` event `eB`. -/
theorem generate_no_result_override_witness :
    eB.clicked = false ∧ eB.purchased = false ∧ eB.click_position = none ∧
    eB.price = none ∧ eB.revenue = 0 :=
  generate_no_result_override 1 30 0 pyZero npB [eB] rfl eB
    (List.mem_singleton.mpr rfl) rfl

/-- C7 counterexample: enrichment assigns a (non-null) price to an
unpurchased event, so "price is null unless purchased" fails on enriched
data. -/
theorem enrich_price_without_purchase :
    (enrich_with_price_and_revenue (fun _ => 100) [cAppEv]).map
      (fun ee => (ee.purchased, ee.price)) = [(false, some 1500)] := by
  decide

/-- C7 (amended): `revenue = price if purchased else 0` holds for both
the generated and the enriched data; `price = null unless purchased`
holds for events of `generate_ecommerce_search_logs`, while the
enrichment fills `price` for every row. -/
theorem revenue_price_consistency :
    (∀ (n_rows days_back now : Int) (py : Nat → PyDraw) (npd : Nat → NpDraw)
      (evs : List Event),
      generate_ecommerce_search_logs n_rows days_back now py npd = .ok evs →
      ∀ e ∈ evs,
        (e.purchased = true → ∃ v, e.price = some v ∧ e.revenue = v) ∧
        (e.purchased = false → e.revenue = 0 ∧ e.price = none)) ∧
    (∀ (noise : Nat → Nat) (evs : List AppEvent),
      ∀ ee ∈ enrich_with_price_and_revenue noise evs,
        (ee.purchased = true → ee.revenue = ee.price.getD 0) ∧
        (ee.purchased = false → ee.revenue = 0) ∧ ee.price.isSome = true) := by
  constructor
  · intro n d now py npd evs h e he
    obtain ⟨i, hi⟩ := generate_ok_row h he
    obtain ⟨a, b, _, _, rfl⟩ := genRow_ok_shape hi
    exact rowCore_price_revenue _ _ _ _ _ _
  · intro noise evs ee hee
    unfold enrich_with_price_and_revenue at hee
    obtain ⟨ie, _, rfl⟩ := List.mem_map.mp hee
    exact enrichRow_fields noise ie

/-- C7 witness: both conjuncts at concrete rows. -/
theorem revenue_price_consistency_witness :
    (∃ v, eA.price = some v ∧ eA.revenue = v) ∧
    (cEnr.revenue = 0 ∧ cEnr.price.isSome = true) :=
  ⟨(revenue_price_consistency.1 1 30 0 pyZero npA [eA] rfl eA
      (List.mem_singleton.mpr rfl)).1 rfl,
   ⟨((revenue_price_consistency.2 (fun _ => 100) [cAppEv] cEnr (by decide)).2).1 rfl,
    ((revenue_price_consistency.2 (fun _ => 100) [cAppEv] cEnr (by decide)).2).2⟩⟩

/-- C8: the three summary rates are 0 on an empty dataset — the
`if total_searches else 0` guard makes the empty case total, with no
division error. -/
theorem rates_empty_zero :
    click_through_rate [] = 0 ∧ add_to_cart_rate [] = 0 ∧ purchase_rate [] = 0 := by
  refine ⟨rfl, rfl, rfl⟩

/-- C9: filtering is idempotent — applying the sidebar mask twice equals
applying it once. -/
theorem df_filt_idempotent (P : FilterPred) (evs : List AppEvent) :
    df_filt P (df_filt P evs) = df_filt P evs := by
  unfold df_filt
  rw [List.filter_filter]
  simp [Bool.and_self]

/-- C10: every generated event's `normalized_query` is in the fixed
18-query catalog, and the raw `query` equals it except when the catalog
entry has a listed noisy variant, in which case the raw query is either
the canonical form or that exact variant. -/
theorem generate_query_catalog
    (n_rows days_back now : Int) (py : Nat → PyDraw) (npd : Nat → NpDraw)
    (evs : List Event)
    (h : generate_ecommerce_search_logs n_rows days_back now py npd = .ok evs) :
    ∀ e ∈ evs, e.normalized_query ∈ queries ∧
      (e.query = e.normalized_query ∨
        ∃ v, noisy_variants.lookup e.normalized_query = some v ∧ e.query = v) := by
  intro e he
  obtain ⟨i, hi⟩ := generate_ok_row h he
  obtain ⟨a, b, _, _, rfl⟩ := genRow_ok_shape hi
  exact ⟨rowCore_normalized_mem _ _ _ _ _ _, rowCore_query_variant _ _ _ _ _ _⟩

/-- C10 witness: the catalog property at the concrete event `eA`. -/
theorem generate_query_catalog_witness :
    eA.normalized_query ∈ queries ∧
    (eA.query = eA.normalized_query ∨
      ∃ v, noisy_variants.lookup eA.normalized_query = some v ∧ eA.query = v) :=
  generate_query_catalog 1 30 0 pyZero npA [eA] rfl eA (List.mem_singleton.mpr rfl)

/-! ## Sorting lemmas for the per-query rollup (C5) -/

/-- Equal code points mean equal characters. -/
theorem charToNat_inj {a b : Char} (h : a.toNat = b.toNat) : a = b :=
  Char.ext (UInt32.toNat.inj h)

/-- `charListLt` is irreflexive. -/
theorem charListLt_irrefl : ∀ (x : List Char), charListLt x x = false := by
  intro x
  induction x with
  | nil => rfl
  | cons a as ih => simp [charListLt, ih]

/-- `charListLt` is transitive. -/
theorem charListLt_trans : ∀ (x y z : List Char), charListLt x y = true →
    charListLt y z = true → charListLt x z = true := by
  intro x
  induction x with
  | nil =>
    intro y z hxy hyz
    cases y with
    | nil => simp [charListLt] at hxy
    | cons b bs =>
      cases z with
      | nil => simp [charListLt] at hyz
      | cons c cs => rfl
  | cons a as ih =>
    intro y z hxy hyz
    cases y with
    | nil => simp [charListLt] at hxy
    | cons b bs =>
      cases z with
      | nil => simp [charListLt] at hyz
      | cons c cs =>
        simp only [charListLt, Bool.or_eq_true, Bool.and_eq_true,
          decide_eq_true_eq] at hxy hyz ⊢
        rcases hxy with h1 | ⟨h1, h2⟩ <;> rcases hyz with h3 | ⟨h3, h4⟩
        · exact Or.inl (by omega)
        · exact Or.inl (by omega)
        · exact Or.inl (by omega)
        · exact Or.inr ⟨by omega, ih bs cs h2 h4⟩

/-- `charListLt` is connex on distinct lists. -/
theorem charListLt_connex : ∀ (x y : List Char), x ≠ y →
    charListLt x y = true ∨ charListLt y x = true := by
  intro x
  induction x with
  | nil =>
    intro y hne
    cases y with
    | nil => exact absurd rfl hne
    | cons b bs => exact Or.inl rfl
  | cons a as ih =>
    intro y hne
    cases y with
    | nil => exact Or.inr rfl
    | cons b bs =>
      simp only [charListLt, Bool.or_eq_true, Bool.and_eq_true, decide_eq_true_eq]
      rcases Nat.lt_trichotomy a.toNat b.toNat with h | h | h
      · exact Or.inl (Or.inl h)
      · have hab : a = b := charToNat_inj h
        subst hab
        have hne' : as ≠ bs := fun hh => hne (by rw [hh])
        rcases ih bs hne' with h' | h'
        · exact Or.inl (Or.inr ⟨rfl, h'⟩)
        · exact Or.inr (Or.inr ⟨rfl, h'⟩)
      · exact Or.inr (Or.inl h)

/-- The ascending-key comparator is total. -/
theorem strPre_total (a b : String) : strPre a b = true ∨ strPre b a = true := by
  by_cases h : charListLt b.data a.data = true
  · right
    by_cases h' : charListLt a.data b.data = true
    · have := charListLt_trans _ _ _ h' h
      rw [charListLt_irrefl] at this
      exact absurd this (by simp)
    · simp [strPre, Bool.not_eq_true] at h' ⊢
      exact h'
  · left
    simp [strPre, Bool.not_eq_true] at h ⊢
    exact h

/-- The ascending-key comparator is transitive. -/
theorem strPre_trans (a b c : String) (h1 : strPre a b = true)
    (h2 : strPre b c = true) : strPre a c = true := by
  simp only [strPre, Bool.not_eq_true', Bool.not_eq_true] at h1 h2 ⊢
  by_cases hca : charListLt c.data a.data = true
  · by_cases hab : a.data = b.data
    · rw [hab] at hca
      rw [hca] at h2
      exact absurd h2 (by simp)
    · rcases charListLt_connex a.data b.data hab with h' | h'
      · have := charListLt_trans _ _ _ hca h'
        rw [this] at h2
        exact absurd h2 (by simp)
      · rw [h'] at h1
        exact absurd h1 (by simp)
  · simpa using hca

/-- `insertPre` inserts exactly its element. -/
theorem insertPre_perm {α : Type} (pre : α → α → Bool) (x : α) :
    ∀ l : List α, (insertPre pre x l).Perm (x :: l) := by
  intro l
  induction l with
  | nil => exact List.Perm.refl _
  | cons y ys ih =>
    unfold insertPre
    split
    · exact List.Perm.refl _
    · exact (ih.cons y).trans (List.Perm.swap x y ys)

/-- Membership after an insertion. -/
theorem mem_insertPre {α : Type} (pre : α → α → Bool) (x a : α) (l : List α) :
    a ∈ insertPre pre x l ↔ a = x ∨ a ∈ l := by
  rw [(insertPre_perm pre x l).mem_iff, List.mem_cons]

/-- `isortBy` permutes its input. -/
theorem isortBy_perm {α : Type} (pre : α → α → Bool) :
    ∀ l : List α, (isortBy pre l).Perm l := by
  intro l
  induction l with
  | nil => exact List.Perm.refl _
  | cons x xs ih => exact (insertPre_perm pre x (isortBy pre xs)).trans (ih.cons x)

/-- Insertion preserves sortedness for a total transitive comparator. -/
theorem insertPre_pairwise {α : Type} {pre : α → α → Bool}
    (total : ∀ a b, pre a b = true ∨ pre b a = true)
    (ptrans : ∀ a b c, pre a b = true → pre b c = true → pre a c = true) (x : α) :
    ∀ {l : List α}, List.Pairwise (fun a b => pre a b = true) l →
      List.Pairwise (fun a b => pre a b = true) (insertPre pre x l) := by
  intro l
  induction l with
  | nil => intro _; exact List.pairwise_singleton _ _
  | cons y ys ih =>
    intro h
    unfold insertPre
    split
    · next hpre =>
      refine List.pairwise_cons.mpr ⟨?_, h⟩
      intro z hz
      rcases List.mem_cons.mp hz with rfl | hz'
      · exact hpre
      · exact ptrans x y z hpre ((List.pairwise_cons.mp h).1 z hz')
    · next hpre =>
      refine List.pairwise_cons.mpr ⟨?_, ih (List.pairwise_cons.mp h).2⟩
      intro z hz
      rcases (mem_insertPre pre x z ys).mp hz with rfl | hz'
      · rcases total z y with h' | h'
        · exact absurd h' hpre
        · exact h'
      · exact (List.pairwise_cons.mp h).1 z hz'

/-- `isortBy` sorts for a total transitive comparator. -/
theorem isortBy_pairwise {α : Type} {pre : α → α → Bool}
    (total : ∀ a b, pre a b = true ∨ pre b a = true)
    (ptrans : ∀ a b c, pre a b = true → pre b c = true → pre a c = true) :
    ∀ (l : List α), List.Pairwise (fun a b => pre a b = true) (isortBy pre l) := by
  intro l
  induction l with
  | nil => exact List.Pairwise.nil
  | cons x xs ih => exact insertPre_pairwise total ptrans x ih

/-- Stable insertion by search count keeps the refined order when the
inserted row's key is lexicographically below every row that ties it. -/
theorem insertPre_rowRel (x : QueryRow) :
    ∀ {l : List QueryRow}, List.Pairwise rowRel l →
      (∀ y ∈ l, x.searches = y.searches → charListLt x.key.data y.key.data = true) →
      List.Pairwise rowRel (insertPre rowPre x l) := by
  intro l
  induction l with
  | nil => intro _ _; exact List.pairwise_singleton _ _
  | cons y ys ih =>
    intro h hx
    unfold insertPre
    split
    · next hpre =>
      have hle : y.searches ≤ x.searches := of_decide_eq_true hpre
      refine List.pairwise_cons.mpr ⟨?_, h⟩
      intro z hz
      rcases List.mem_cons.mp hz with rfl | hz'
      · rcases Nat.lt_or_ge z.searches x.searches with hlt | hge
        · exact Or.inl hlt
        · have heq : x.searches = z.searches := by omega
          exact Or.inr ⟨heq, hx z (List.mem_cons_self _ _) heq⟩
      · have hyz := (List.pairwise_cons.mp h).1 z hz'
        rcases hyz with hlt | ⟨heq, _⟩
        · exact Or.inl (by omega)
        · rcases Nat.lt_or_ge z.searches x.searches with hlt | hge
          · exact Or.inl hlt
          · have heq2 : x.searches = z.searches := by omega
            exact Or.inr ⟨heq2, hx z (List.mem_cons_of_mem _ hz') heq2⟩
    · next hpre =>
      have hlt : x.searches < y.searches := by
        simp only [rowPre, decide_eq_true_eq] at hpre
        omega
      refine List.pairwise_cons.mpr ⟨?_,
        ih (List.pairwise_cons.mp h).2
          (fun z hz hs => hx z (List.mem_cons_of_mem _ hz) hs)⟩
      intro z hz
      rcases (mem_insertPre rowPre x z ys).mp hz with rfl | hz'
      · exact Or.inl hlt
      · exact (List.pairwise_cons.mp h).1 z hz'

/-- Stable sorting by search count refines to `rowRel` when tied rows
arrive in ascending key order. -/
theorem isortBy_rowRel :
    ∀ {l : List QueryRow},
      List.Pairwise (fun a b => a.searches = b.searches →
        charListLt a.key.data b.key.data = true) l →
      List.Pairwise rowRel (isortBy rowPre l) := by
  intro l
  induction l with
  | nil => intro _; exact List.Pairwise.nil
  | cons x xs ih =>
    intro h
    unfold isortBy
    refine insertPre_rowRel x (ih (List.pairwise_cons.mp h).2) ?_
    intro y hy hs
    exact (List.pairwise_cons.mp h).1 y ((isortBy_perm rowPre xs).mem_iff.mp hy) hs

/-- The group keys of the rollup are strictly ascending. -/
theorem sortedKeys_pairwise (events : List Event) :
    List.Pairwise (fun a b : String => charListLt a.data b.data = true)
      (sortedKeys events) := by
  have h1 : List.Pairwise (fun a b : String => strPre a b = true) (sortedKeys events) :=
    isortBy_pairwise strPre_total strPre_trans _
  have h2 : (sortedKeys events).Nodup :=
    ((isortBy_perm strPre _).nodup_iff).mpr (List.nodup_dedup _)
  have h2' : List.Pairwise (fun a b : String => a ≠ b) (sortedKeys events) := h2
  refine (h1.and h2').imp (fun {a b} hab => ?_)
  obtain ⟨hp, hne⟩ := hab
  have hne' : a.data ≠ b.data := fun hd => hne (String.ext hd)
  rcases charListLt_connex a.data b.data hne' with h' | h'
  · exact h'
  · simp only [strPre, Bool.not_eq_true'] at hp
    rw [h'] at hp
    exact absurd hp (by simp)

/-! ## Claim theorems (C5) -/

/-- C5 counterexample: `top_queries` groups by the raw `query` column,
not by `normalized_query` — on two events sharing one normalized query
but spelled differently it produces two rows where the spec-side rollup
produces one. -/
theorem top_queries_groups_by_raw_query :
    (top_queries 10 [cE1, cE2]).length = 2 ∧
    (top_queries_by_normalized 10 [cE1, cE2]).length = 1 := by
  decide

/-- C5 (amended): the rollup groups by the raw `query` column and its
output is strictly ordered: descending search count, with tied search
counts in ascending lexicographic key order — so the ordering is uniquely
determined for every input dataset. -/
theorem top_queries_sorted (top_n : Nat) (events : List Event) :
    List.Pairwise rowRel (top_queries top_n events) := by
  unfold top_queries
  refine List.Pairwise.sublist (List.take_sublist _ _) ?_
  refine isortBy_rowRel ?_
  rw [List.pairwise_map]
  refine (sortedKeys_pairwise events).imp (fun {a b} h => ?_)
  intro _
  exact h
